import Mathlib

/-!
Verification of the HubSpot MCP server (`src/hubspot_mcp/server.py`) against its
natural-language specification.  The Python module is shallowly embedded:
JSON-compatible values become the inductive `JValue`, Python dicts become
insertion-ordered association lists with Python's update semantics, exceptions
become an explicit `PyError` error type carried in `Except`, and the outbound
HTTP channel becomes a function from the built request to an abstract remote
answer.  All definitions are transcribed from the source, except where a doc
comment says `Modelled from the spec:` (third-party transport behaviour that is
not part of the repository's source).
-/

namespace HubSpotMCP

/-- JSON-compatible Python values: the argument maps, request bodies and
response bodies the server manipulates.  Objects are insertion-ordered
association lists, matching Python dict iteration order. -/
inductive JValue where
  | null : JValue
  | bool (b : Bool) : JValue
  | int (i : Int) : JValue
  | str (s : String) : JValue
  | arr (items : List JValue) : JValue
  | obj (fields : List (String × JValue)) : JValue
deriving Repr

/-- A Python dict with string keys, in insertion order. -/
abbrev Dict := List (String × JValue)

/-- `d.get(k)` / `k in d`: first-match lookup. -/
def dictGet : Dict → String → Option JValue
  | [], _ => none
  | (k', v) :: rest, k => if k' = k then some v else dictGet rest k

/-- `k in d`. -/
def dictContains (d : Dict) (k : String) : Bool :=
  (dictGet d k).isSome

/-- `d[k] = v`: Python dict assignment — updates an existing key in place
(keeping its position) or appends a new key at the end. -/
def dictSet : Dict → String → JValue → Dict
  | [], k, v => [(k, v)]
  | (k', v') :: rest, k, v =>
      if k' = k then (k', v) :: rest else (k', v') :: dictSet rest k v

/-- Python truthiness of a JSON value (`if x:`). -/
def jtruthy : JValue → Bool
  | .null => false
  | .bool b => b
  | .int i => i ≠ 0
  | .str s => !s.isEmpty
  | .arr items => !items.isEmpty
  | .obj fields => !fields.isEmpty

/-- Python truthiness of an optional string (`if self.config.access_token:`):
`None` and the empty string are falsy. -/
def truthyS : Option String → Bool
  | none => false
  | some s => !s.isEmpty

mutual

/-- Rendering of a JSON value to text; stands in for the response body text
(`e.response.text`) of a parsed body.  String escaping and Python's
single-quote repr details are not reproduced; no property depends on them. -/
def jsonRender : JValue → String
  | .null => "null"
  | .bool true => "true"
  | .bool false => "false"
  | .int i => toString i
  | .str s => "\x22" ++ s ++ "\x22"
  | .arr items => "[" ++ jsonRenderList items ++ "]"
  | .obj fields => "\x7b" ++ jsonRenderFields fields ++ "\x7d"

def jsonRenderList : List JValue → String
  | [] => ""
  | [v] => jsonRender v
  | v :: rest => jsonRender v ++ ", " ++ jsonRenderList rest

def jsonRenderFields : List (String × JValue) → String
  | [] => ""
  | [(k, v)] => "\x22" ++ k ++ "\x22: " ++ jsonRender v
  | (k, v) :: rest => "\x22" ++ k ++ "\x22: " ++ jsonRender v ++ ", " ++ jsonRenderFields rest

end

/-- Python `str()` of a JSON value, as used by f-string interpolation of ids
into endpoint paths.  Containers are approximated by their JSON rendering
(quote style differs from Python repr; no property depends on it). -/
def pyStr : JValue → String
  | .str s => s
  | .int i => toString i
  | .bool true => "True"
  | .bool false => "False"
  | .null => "None"
  | v => jsonRender v

/-- The Python exceptions the module can raise: `KeyError` from an unguarded
`params[k]`, `ValueError` from the unknown-tool check, `TypeError` from
operations on ill-typed values, and the transport failures re-raised by
`_request` (`httpx.HTTPStatusError` after `raise_for_status`, and
connection/timeout/DNS failures). -/
inductive PyError where
  | keyError (key : String) : PyError
  | valueError (msg : String) : PyError
  | typeError (msg : String) : PyError
  | httpStatusError (status : Nat) (bodyText : String) : PyError
  | networkError (msg : String) : PyError
deriving Repr, DecidableEq

/-- Modelled from the spec: the message of the HTTP-status failure raised by
the third-party transport (httpx's `HTTPStatusError`, raised by
`response.raise_for_status()`, not part of this repository's source).  Per the
spec it carries the status and the response body, and the stringified message
contains both. -/
def renderHttpStatusError (status : Nat) (bodyText : String) : String :=
  "HTTP error " ++ toString status ++ ": " ++ bodyText

/-- Python `str(e)` for each exception, as used by the dispatcher when it
builds the failure envelope. -/
def strOfError : PyError → String
  | .keyError k => "\x27" ++ k ++ "\x27"
  | .valueError m => m
  | .typeError m => m
  | .httpStatusError s b => renderHttpStatusError s b
  | .networkError m => m

/-- `e.isOk` for `Except` values. -/
def isOk {ε α : Type} : Except ε α → Bool
  | .ok _ => true
  | .error _ => false

/-- `HubSpotConfig` (server.py lines 17-29): the resolved settings object.
Environment/.env loading is the external collaborator's job; the core consumes
the resolved fields. -/
structure HubSpotConfig where
  api_key : Option String
  access_token : Option String
  api_base_url : String

/-- `HubSpotClient._get_headers` (server.py lines 44-56): always
`Content-Type`, then a bearer `Authorization` from the access token when it is
truthy, else from the API key when that is truthy. -/
def get_headers (config : HubSpotConfig) : List (String × String) :=
  let headers := [("Content-Type", "application/json")]
  if truthyS config.access_token then
    headers ++ [("Authorization", "Bearer " ++ (config.access_token.getD ""))]
  else if truthyS config.api_key then
    headers ++ [("Authorization", "Bearer " ++ (config.api_key.getD ""))]
  else
    headers

/-- `HubSpotClient.__init__` (server.py lines 35-42): the headers are computed
once at construction and installed on the HTTP channel; `_request` never
recomputes them. -/
structure HubSpotClient where
  config : HubSpotConfig
  headers : List (String × String)

/-- `HubSpotClient(config)`. -/
def mkClient (config : HubSpotConfig) : HubSpotClient :=
  { config := config, headers := get_headers config }

/-- The (method, endpoint, query-params, json-body) quadruple a client method
passes to `_request`.  `params = none` models Python's `params=None` default,
distinct from an empty dict. -/
structure ClientCall where
  method : String
  endpoint : String
  params : Option Dict
  jsonData : Option JValue
deriving Repr

/-- The outbound request as issued on the wire: the `ClientCall` after
`_request`'s API-key query-parameter injection, together with the
construction-time headers.  The source additionally joins
`url = urljoin(base_url, endpoint)`; the endpoint is kept unjoined here since
no verified property concerns the joined URL text. -/
structure RequestSpec where
  method : String
  endpoint : String
  headers : List (String × String)
  params : Option Dict
  jsonData : Option JValue
deriving Repr

/-- `HubSpotClient._request`, request-building half (server.py lines 66-71):
when an API key is set and no access token is, the key is added to the query
parameters as `hapikey` (creating the params dict if the caller passed none). -/
def buildRequest (client : HubSpotClient) (call : ClientCall) : RequestSpec :=
  let ps :=
    if truthyS client.config.api_key && !truthyS client.config.access_token then
      some (dictSet (call.params.getD []) "hapikey" (.str (client.config.api_key.getD "")))
    else
      call.params
  { method := call.method, endpoint := call.endpoint,
    headers := client.headers, params := ps, jsonData := call.jsonData }

/-- What the remote end does with one request: either an HTTP response (status
plus parsed body) or a transport-level failure (connection/timeout/DNS). -/
inductive RemoteAnswer where
  | answer (status : Nat) (body : JValue) : RemoteAnswer
  | netFail (msg : String) : RemoteAnswer

/-- A remote environment: the behaviour of the HTTP channel, as a function of
the issued request. -/
abbrev Remote := RequestSpec → RemoteAnswer

/-- `HubSpotClient._request`, response half (server.py lines 73-91):
`raise_for_status` raises `HTTPStatusError` on any non-2xx status (re-raised
after logging); a 204 is normalized to the fixed success dict instead of
parsing the empty body; any other 2xx returns the parsed body; transport
failures propagate (re-raised after logging). -/
def interpret (remote : Remote) (req : RequestSpec) : Except PyError JValue :=
  match remote req with
  | .netFail msg => .error (.networkError msg)
  | .answer status body =>
      if 200 ≤ status ∧ status < 300 then
        if status = 204 then
          .ok (.obj [("success", .bool true),
                     ("message", .str "Operation completed successfully")])
        else
          .ok body
      else
        .error (.httpStatusError status (jsonRender body))

/-- A full client call: build the request, then let the remote answer it. -/
def performCall (client : HubSpotClient) (remote : Remote) (call : ClientCall) :
    Except PyError JValue :=
  interpret remote (buildRequest client call)

/-- Python `",".join(xs)` over a list whose items must all be strings. -/
def joinStrList : List JValue → Except PyError (List String)
  | [] => .ok []
  | .str s :: rest => do
      let tail ← joinStrList rest
      return s :: tail
  | _ :: _ => .error (.typeError "sequence item: expected str instance")

/-- Python `",".join(properties)`: joins a list of strings; a string iterates
its characters; a dict iterates its keys; anything else raises `TypeError`. -/
def joinComma : JValue → Except PyError String
  | .arr items => do
      let parts ← joinStrList items
      return String.intercalate "," parts
  | .str s => .ok (String.intercalate "," (s.toList.map (fun c => String.mk [c])))
  | .obj fields => .ok (String.intercalate "," (fields.map (fun kv => kv.1)))
  | _ => .error (.typeError "can only join an iterable")

namespace HubSpotClient

/-- `HubSpotClient.get_contacts` (server.py lines 93-103): GET with a `limit`
query parameter and a comma-joined `properties` parameter when truthy. -/
def get_contacts (limit : JValue) (properties : JValue) :
    Except PyError ClientCall := do
  let ps : Dict := [("limit", limit)]
  let ps ← if jtruthy properties then do
      let joined ← joinComma properties
      pure (dictSet ps "properties" (.str joined))
    else pure ps
  return { method := "GET", endpoint := "/crm/v3/objects/contacts",
           params := some ps, jsonData := none }

/-- `HubSpotClient.get_contact` (server.py lines 105-107). -/
def get_contact (contact_id : JValue) : ClientCall :=
  { method := "GET", endpoint := "/crm/v3/objects/contacts/" ++ pyStr contact_id,
    params := none, jsonData := none }

/-- `HubSpotClient.create_contact` (server.py lines 109-115): POST with body
`{"properties": properties}`. -/
def create_contact (properties : JValue) : ClientCall :=
  { method := "POST", endpoint := "/crm/v3/objects/contacts",
    params := none, jsonData := some (.obj [("properties", properties)]) }

/-- `HubSpotClient.update_contact` (server.py lines 117-127). -/
def update_contact (contact_id : JValue) (properties : JValue) : ClientCall :=
  { method := "PATCH", endpoint := "/crm/v3/objects/contacts/" ++ pyStr contact_id,
    params := none, jsonData := some (.obj [("properties", properties)]) }

/-- `HubSpotClient.delete_contact` (server.py lines 129-131). -/
def delete_contact (contact_id : JValue) : ClientCall :=
  { method := "DELETE", endpoint := "/crm/v3/objects/contacts/" ++ pyStr contact_id,
    params := none, jsonData := none }

/-- `HubSpotClient.get_companies` (server.py lines 133-143). -/
def get_companies (limit : JValue) (properties : JValue) :
    Except PyError ClientCall := do
  let ps : Dict := [("limit", limit)]
  let ps ← if jtruthy properties then do
      let joined ← joinComma properties
      pure (dictSet ps "properties" (.str joined))
    else pure ps
  return { method := "GET", endpoint := "/crm/v3/objects/companies",
           params := some ps, jsonData := none }

/-- `HubSpotClient.get_company` (server.py lines 145-147). -/
def get_company (company_id : JValue) : ClientCall :=
  { method := "GET", endpoint := "/crm/v3/objects/companies/" ++ pyStr company_id,
    params := none, jsonData := none }

/-- `HubSpotClient.create_company` (server.py lines 149-155). -/
def create_company (properties : JValue) : ClientCall :=
  { method := "POST", endpoint := "/crm/v3/objects/companies",
    params := none, jsonData := some (.obj [("properties", properties)]) }

/-- `HubSpotClient.update_company` (server.py lines 157-167). -/
def update_company (company_id : JValue) (properties : JValue) : ClientCall :=
  { method := "PATCH", endpoint := "/crm/v3/objects/companies/" ++ pyStr company_id,
    params := none, jsonData := some (.obj [("properties", properties)]) }

/-- `HubSpotClient.get_deals` (server.py lines 169-179). -/
def get_deals (limit : JValue) (properties : JValue) :
    Except PyError ClientCall := do
  let ps : Dict := [("limit", limit)]
  let ps ← if jtruthy properties then do
      let joined ← joinComma properties
      pure (dictSet ps "properties" (.str joined))
    else pure ps
  return { method := "GET", endpoint := "/crm/v3/objects/deals",
           params := some ps, jsonData := none }

/-- `HubSpotClient.get_deal` (server.py lines 181-183). -/
def get_deal (deal_id : JValue) : ClientCall :=
  { method := "GET", endpoint := "/crm/v3/objects/deals/" ++ pyStr deal_id,
    params := none, jsonData := none }

/-- `HubSpotClient.create_deal` (server.py lines 185-191). -/
def create_deal (properties : JValue) : ClientCall :=
  { method := "POST", endpoint := "/crm/v3/objects/deals",
    params := none, jsonData := some (.obj [("properties", properties)]) }

/-- `HubSpotClient.search` (server.py lines 193-208): POST to
`/crm/v3/objects/{object_type}/search` with body
`{"filterGroups": [{"filters": filters}], "limit": limit}` — always a single
filter group. -/
def search (object_type : JValue) (filters : List JValue) (limit : JValue) :
    ClientCall :=
  { method := "POST",
    endpoint := "/crm/v3/objects/" ++ pyStr object_type ++ "/search",
    params := none,
    jsonData := some (.obj [("filterGroups", .arr [.obj [("filters", .arr filters)]]),
                            ("limit", limit)]) }

end HubSpotClient

/-- An unguarded `params[k]`: the value when present, `KeyError` otherwise. -/
def getItem (d : Dict) (k : String) : Except PyError JValue :=
  match dictGet d k with
  | some v => .ok v
  | none => .error (.keyError k)

/-- `properties[k] = v` on a local value: item assignment succeeds on a dict
and raises `TypeError` on anything else. -/
def setItem (v : JValue) (k : String) (x : JValue) : Except PyError JValue :=
  match v with
  | .obj d => .ok (.obj (dictSet d k x))
  | _ => .error (.typeError "object does not support item assignment")

/-- One `if k in params: properties[k] = params[k]` statement from the
create-contact / create-company handlers. -/
def applyShorthand (params : Dict) (k : String) (props : JValue) :
    Except PyError JValue :=
  match dictGet params k with
  | some v => setItem props k v
  | none => .ok props

/-- `MCPServer._handle_list_contacts` (server.py lines 394-398). -/
def handle_list_contacts (params : Dict) : Except PyError ClientCall :=
  HubSpotClient.get_contacts ((dictGet params "limit").getD (.int 100))
    ((dictGet params "properties").getD .null)

/-- `MCPServer._handle_get_contact` (server.py lines 400-403). -/
def handle_get_contact (params : Dict) : Except PyError ClientCall := do
  let contact_id ← getItem params "contact_id"
  return HubSpotClient.get_contact contact_id

/-- `MCPServer._handle_create_contact` (server.py lines 405-417): start from
`params.get("properties", {})`, fold in the `email`/`firstname`/`lastname`
shorthand fields when present, and create with the merged map.  (The aliasing
of the caller's nested dict is tracked separately by
`handle_create_contact_tracked` below; the merged value sent outbound is the
same.) -/
def handle_create_contact (params : Dict) : Except PyError ClientCall := do
  let props := (dictGet params "properties").getD (.obj [])
  let props ← applyShorthand params "email" props
  let props ← applyShorthand params "firstname" props
  let props ← applyShorthand params "lastname" props
  return HubSpotClient.create_contact props

/-- `MCPServer._handle_update_contact` (server.py lines 419-423). -/
def handle_update_contact (params : Dict) : Except PyError ClientCall := do
  let contact_id ← getItem params "contact_id"
  let properties ← getItem params "properties"
  return HubSpotClient.update_contact contact_id properties

/-- `MCPServer._handle_list_companies` (server.py lines 425-428): only the
limit is forwarded; no properties argument is passed. -/
def handle_list_companies (params : Dict) : Except PyError ClientCall :=
  HubSpotClient.get_companies ((dictGet params "limit").getD (.int 100)) .null

/-- `MCPServer._handle_get_company` (server.py lines 430-433). -/
def handle_get_company (params : Dict) : Except PyError ClientCall := do
  let company_id ← getItem params "company_id"
  return HubSpotClient.get_company company_id

/-- `MCPServer._handle_create_company` (server.py lines 435-443). -/
def handle_create_company (params : Dict) : Except PyError ClientCall := do
  let props := (dictGet params "properties").getD (.obj [])
  let props ← applyShorthand params "name" props
  return HubSpotClient.create_company props

/-- `MCPServer._handle_list_deals` (server.py lines 445-448). -/
def handle_list_deals (params : Dict) : Except PyError ClientCall :=
  HubSpotClient.get_deals ((dictGet params "limit").getD (.int 100)) .null

/-- `MCPServer._handle_search` (server.py lines 450-459): builds exactly one
filter `{propertyName, operator (default "EQ"), value}` and forwards
`params.get("limit", 100)`. -/
def handle_search (params : Dict) : Except PyError ClientCall := do
  let object_type ← getItem params "object_type"
  let prop ← getItem params "property"
  let op := (dictGet params "operator").getD (.str "EQ")
  let value ← getItem params "value"
  let filters := [JValue.obj [("propertyName", prop), ("operator", op),
                              ("value", value)]]
  let limit := (dictGet params "limit").getD (.int 100)
  return HubSpotClient.search object_type filters limit

/-- One registry entry: description, parameter schema (transcribed verbatim as
JSON data) and the bound handler. -/
structure Tool where
  description : String
  parameters : JValue
  handler : Dict → Except PyError ClientCall

/-- `list_contacts` parameter schema (server.py lines 228-242). -/
def listContactsSchema : JValue :=
  .obj [("type", .str "object"),
        ("properties", .obj
          [("limit", .obj [("type", .str "integer"),
                           ("description", .str "Maximum number of contacts to retrieve"),
                           ("default", .int 100)]),
           ("properties", .obj [("type", .str "array"),
                                ("items", .obj [("type", .str "string")]),
                                ("description", .str "List of properties to retrieve for each contact")])])]

/-- `get_contact` parameter schema (server.py lines 247-256). -/
def getContactSchema : JValue :=
  .obj [("type", .str "object"),
        ("properties", .obj
          [("contact_id", .obj [("type", .str "string"),
                                ("description", .str "The ID of the contact to retrieve")])]),
        ("required", .arr [.str "contact_id"])]

/-- `create_contact` parameter schema (server.py lines 261-282). -/
def createContactSchema : JValue :=
  .obj [("type", .str "object"),
        ("properties", .obj
          [("email", .obj [("type", .str "string"),
                           ("description", .str "Email address of the contact")]),
           ("firstname", .obj [("type", .str "string"),
                               ("description", .str "First name of the contact")]),
           ("lastname", .obj [("type", .str "string"),
                              ("description", .str "Last name of the contact")]),
           ("properties", .obj [("type", .str "object"),
                                ("description", .str "Additional properties for the contact")])]),
        ("required", .arr [.str "email"])]

/-- `update_contact` parameter schema (server.py lines 287-300). -/
def updateContactSchema : JValue :=
  .obj [("type", .str "object"),
        ("properties", .obj
          [("contact_id", .obj [("type", .str "string"),
                                ("description", .str "The ID of the contact to update")]),
           ("properties", .obj [("type", .str "object"),
                                ("description", .str "Properties to update")])]),
        ("required", .arr [.str "contact_id", .str "properties"])]

/-- `list_companies` parameter schema (server.py lines 305-314). -/
def listCompaniesSchema : JValue :=
  .obj [("type", .str "object"),
        ("properties", .obj
          [("limit", .obj [("type", .str "integer"),
                           ("description", .str "Maximum number of companies to retrieve"),
                           ("default", .int 100)])])]

/-- `get_company` parameter schema (server.py lines 319-328). -/
def getCompanySchema : JValue :=
  .obj [("type", .str "object"),
        ("properties", .obj
          [("company_id", .obj [("type", .str "string"),
                                ("description", .str "The ID of the company to retrieve")])]),
        ("required", .arr [.str "company_id"])]

/-- `create_company` parameter schema (server.py lines 333-346). -/
def createCompanySchema : JValue :=
  .obj [("type", .str "object"),
        ("properties", .obj
          [("name", .obj [("type", .str "string"),
                          ("description", .str "Name of the company")]),
           ("properties", .obj [("type", .str "object"),
                                ("description", .str "Additional properties for the company")])]),
        ("required", .arr [.str "name"])]

/-- `list_deals` parameter schema (server.py lines 351-360). -/
def listDealsSchema : JValue :=
  .obj [("type", .str "object"),
        ("properties", .obj
          [("limit", .obj [("type", .str "integer"),
                           ("description", .str "Maximum number of deals to retrieve"),
                           ("default", .int 100)])])]

/-- `search` parameter schema (server.py lines 365-389): note that the
declared properties are `object_type`, `property`, `value`, `operator` — no
`limit` property is declared. -/
def searchSchema : JValue :=
  .obj [("type", .str "object"),
        ("properties", .obj
          [("object_type", .obj [("type", .str "string"),
                                 ("description", .str "Type of object to search (contacts, companies, deals)"),
                                 ("enum", .arr [.str "contacts", .str "companies", .str "deals"])]),
           ("property", .obj [("type", .str "string"),
                              ("description", .str "Property to search on")]),
           ("value", .obj [("type", .str "string"),
                           ("description", .str "Value to search for")]),
           ("operator", .obj [("type", .str "string"),
                              ("description", .str "Search operator"),
                              ("default", .str "EQ"),
                              ("enum", .arr [.str "EQ", .str "NEQ", .str "LT", .str "LTE",
                                             .str "GT", .str "GTE", .str "CONTAINS"])])]),
        ("required", .arr [.str "object_type", .str "property", .str "value"])]

/-- `MCPServer._register_tools` (server.py lines 223-392): the tool registry
dict, in the source's insertion order. -/
def registry : List (String × Tool) :=
  [("list_contacts",
    { description := "List contacts from HubSpot CRM",
      parameters := listContactsSchema, handler := handle_list_contacts }),
   ("get_contact",
    { description := "Get a specific contact by ID",
      parameters := getContactSchema, handler := handle_get_contact }),
   ("create_contact",
    { description := "Create a new contact in HubSpot",
      parameters := createContactSchema, handler := handle_create_contact }),
   ("update_contact",
    { description := "Update an existing contact",
      parameters := updateContactSchema, handler := handle_update_contact }),
   ("list_companies",
    { description := "List companies from HubSpot CRM",
      parameters := listCompaniesSchema, handler := handle_list_companies }),
   ("get_company",
    { description := "Get a specific company by ID",
      parameters := getCompanySchema, handler := handle_get_company }),
   ("create_company",
    { description := "Create a new company in HubSpot",
      parameters := createCompanySchema, handler := handle_create_company }),
   ("list_deals",
    { description := "List deals from HubSpot CRM",
      parameters := listDealsSchema, handler := handle_list_deals }),
   ("search",
    { description := "Search for objects in HubSpot CRM",
      parameters := searchSchema, handler := handle_search })]

/-- Dict lookup in the registry (`self.tools[tool_name]` after
`tool_name in self.tools`). -/
def lookupTool : String → Option Tool :=
  let rec go : List (String × Tool) → String → Option Tool
    | [], _ => none
    | (k, t) :: rest, name => if k = name then some t else go rest name
  fun name => go registry name

/-- `tool_name in self.tools`. -/
def isRegistered (name : String) : Bool :=
  (lookupTool name).isSome

/-- The names in the registry, in registration order. -/
def registryNames : List String := registry.map (fun kv => kv.1)

/-- Run a registered tool's handler on an argument map, producing the client
call it issues or the exception it raises.  (Unknown names never reach this:
the dispatcher checks membership first.) -/
def runTool (name : String) (args : Dict) : Except PyError ClientCall :=
  match lookupTool name with
  | some t => t.handler args
  | none => .error (.valueError ("Unknown tool: " ++ name))

/-- The handler's full outcome including the network round trip. -/
def toolOutcome (client : HubSpotClient) (remote : Remote) (name : String)
    (args : Dict) : Except PyError JValue :=
  match runTool name args with
  | .ok call => performCall client remote call
  | .error e => .error e

/-- `MCPServer.handle_tool_call` (server.py lines 461-474): an unregistered
name raises `ValueError` before the try block; for a registered name the
handler runs inside the try block and its outcome is wrapped into the
`{success, result}` / `{success, error}` envelope — every handler exception is
caught there. -/
def handle_tool_call (client : HubSpotClient) (remote : Remote) (name : String)
    (args : Dict) : Except PyError JValue :=
  match lookupTool name with
  | none => .error (.valueError ("Unknown tool: " ++ name))
  | some _ =>
      match toolOutcome client remote name args with
      | .ok v => .ok (.obj [("success", .bool true), ("result", v)])
      | .error e => .ok (.obj [("success", .bool false),
                               ("error", .str (strOfError e))])

/-- The property names a schema declares (`parameters.properties` keys). -/
def schemaPropertyNames (schema : JValue) : List String :=
  match schema with
  | .obj fields =>
      match dictGet fields "properties" with
      | some (.obj props) => props.map (fun kv => kv.1)
      | _ => []
  | _ => []

/-- The `required` list a schema declares. -/
def schemaRequired (schema : JValue) : List String :=
  match schema with
  | .obj fields =>
      match dictGet fields "required" with
      | some (.arr items) =>
          items.filterMap (fun v => match v with | .str s => some s | _ => none)
      | _ => []
  | _ => []

/-- `describe(name).required`: the required list of a registered tool. -/
def requiredOf (name : String) : List String :=
  match lookupTool name with
  | some t => schemaRequired t.parameters
  | none => []

/-- One `if k in params: properties[k] = params[k]` statement, acting on a
dict value (where item assignment always succeeds). -/
def setShorthand (params : Dict) (k : String) (d : Dict) : Dict :=
  match dictGet params k with
  | some v => dictSet d k v
  | none => d

/-- The three shorthand statements of `_handle_create_contact`, in source
order: email, then firstname, then lastname. -/
def mergeShorthands (params : Dict) (d : Dict) : Dict :=
  setShorthand params "lastname" (setShorthand params "firstname" (setShorthand params "email" d))

/-- State-passing embedding of `_handle_create_contact` (server.py lines
405-417) that additionally tracks the caller's argument map.  In the source,
`properties = params.get("properties", {})` binds `properties` to the very
dict object stored under the caller's "properties" key when one is present —
no copy is taken — so the subsequent `properties[...] = ...` statements write
through that alias and mutate the caller's nested map in place.  When the key
is absent (or holds a non-dict, on which item assignment raises before any
mutation), the caller's argument map is left as it was.  Returns the handler's
outcome paired with the caller's argument map after the handler ran. -/
def handle_create_contact_tracked (params : Dict) :
    (Except PyError ClientCall) × Dict :=
  match dictGet params "properties" with
  | some (.obj d) =>
      let merged := mergeShorthands params d
      (.ok (HubSpotClient.create_contact (.obj merged)),
       dictSet params "properties" (.obj merged))
  | some _ => (handle_create_contact params, params)
  | none => (handle_create_contact params, params)

/-- The fixed dict `_request` substitutes for a 204 response body
(server.py line 83). -/
def noContentResult : JValue :=
  .obj [("success", .bool true), ("message", .str "Operation completed successfully")]

/-- A concrete configuration for witness instantiations: bearer token only. -/
def testConfig : HubSpotConfig :=
  { api_key := none, access_token := some "token", api_base_url := "https://api.hubapi.com" }

/-- A concrete client for witness instantiations. -/
def testClient : HubSpotClient := mkClient testConfig

/-- A remote environment answering every request with `200 {}`. -/
def okRemote : Remote := fun _ => .answer 200 (.obj [])

/-- A remote environment answering every request with `204 No Content`. -/
def remote204 : Remote := fun _ => .answer 204 (.obj [])

/-- A remote environment answering every request with a 500 and a fixed body. -/
def remote500 : Remote := fun _ => .answer 500 (.str "internal server error")

section Lemmas

lemma dictGet_eq_none_of_not_contains {d : Dict} {k : String}
    (h : dictContains d k = false) : dictGet d k = none := by
  unfold dictContains at h
  cases hg : dictGet d k with
  | none => rfl
  | some v => rw [hg] at h; simp at h

lemma runTool_lookup {name : String} {args : Dict} {call : ClientCall}
    (h : runTool name args = .ok call) :
    ∃ t, lookupTool name = some t ∧ t.handler args = .ok call := by
  unfold runTool at h
  cases hl : lookupTool name with
  | none => rw [hl] at h; exact absurd h (by simp)
  | some t => rw [hl] at h; exact ⟨t, rfl, h⟩

lemma applyShorthand_obj (params : Dict) (k : String) (d : Dict) :
    applyShorthand params k (.obj d) = .ok (.obj (setShorthand params k d)) := by
  unfold applyShorthand setShorthand setItem
  cases dictGet params k <;> simp

lemma handle_create_contact_obj (params : Dict) (d : Dict)
    (h : dictGet params "properties" = some (.obj d)) :
    handle_create_contact params =
      .ok (HubSpotClient.create_contact (.obj (mergeShorthands params d))) := by
  unfold handle_create_contact mergeShorthands
  rw [h]
  simp [Option.getD, applyShorthand_obj, Bind.bind, Except.bind, Functor.map, Except.map,
        Pure.pure, Except.pure]

lemma handle_create_contact_none (params : Dict)
    (h : dictGet params "properties" = none) :
    handle_create_contact params =
      .ok (HubSpotClient.create_contact (.obj (mergeShorthands params []))) := by
  unfold handle_create_contact mergeShorthands
  rw [h]
  simp [Option.getD, applyShorthand_obj, Bind.bind, Except.bind, Functor.map, Except.map,
        Pure.pure, Except.pure]

end Lemmas

/-- C1: for every registered tool name and every argument map, the dispatcher
returns exactly one of the two envelope shapes — `{success: true, result: v}`
when the bound handler's outcome is a value, `{success: false, error: msg}`
when it is any raised failure — and in both cases the dispatcher itself
returns normally (`Except.ok`), so no handler exception propagates past the
dispatcher boundary. -/
theorem handle_tool_call_envelope (client : HubSpotClient) (remote : Remote)
    (name : String) (args : Dict) (h : isRegistered name = true) :
    (∃ v, toolOutcome client remote name args = .ok v ∧
      handle_tool_call client remote name args =
        .ok (.obj [("success", .bool true), ("result", v)])) ∨
    (∃ e, toolOutcome client remote name args = .error e ∧
      handle_tool_call client remote name args =
        .ok (.obj [("success", .bool false), ("error", .str (strOfError e))])) := by
  unfold isRegistered at h
  unfold handle_tool_call
  cases hl : lookupTool name with
  | none => rw [hl] at h; simp at h
  | some t =>
      cases ho : toolOutcome client remote name args with
      | ok v => exact Or.inl ⟨v, rfl, rfl⟩
      | error e => exact Or.inr ⟨e, rfl, rfl⟩

/-- Witness for C1 at a concrete input: `list_contacts` with an empty argument
map against a remote answering `200 {}`. -/
theorem handle_tool_call_envelope_witness :
    (∃ v, toolOutcome testClient okRemote "list_contacts" [] = .ok v ∧
      handle_tool_call testClient okRemote "list_contacts" [] =
        .ok (.obj [("success", .bool true), ("result", v)])) ∨
    (∃ e, toolOutcome testClient okRemote "list_contacts" [] = .error e ∧
      handle_tool_call testClient okRemote "list_contacts" [] =
        .ok (.obj [("success", .bool false), ("error", .str (strOfError e))])) :=
  handle_tool_call_envelope testClient okRemote "list_contacts" [] (by decide)

/-- C3: for every name not in the registry and every argument map, the
dispatcher raises `ValueError("Unknown tool: ...")` — a structured failure
propagating before the result envelope is constructed — and never returns a
success (or any) envelope. -/
theorem handle_tool_call_unknown (client : HubSpotClient) (remote : Remote)
    (name : String) (args : Dict) (h : isRegistered name = false) :
    handle_tool_call client remote name args =
      .error (.valueError ("Unknown tool: " ++ name)) ∧
    ∀ v, handle_tool_call client remote name args ≠ .ok v := by
  unfold isRegistered at h
  unfold handle_tool_call
  cases hl : lookupTool name with
  | none => exact ⟨rfl, by intro v hv; exact absurd hv (by simp)⟩
  | some t => rw [hl] at h; simp at h

/-- Witness for C3 at a concrete input: the unregistered name
`delete_objects`. -/
theorem handle_tool_call_unknown_witness :
    handle_tool_call testClient okRemote "delete_objects" [] =
      .error (.valueError ("Unknown tool: " ++ "delete_objects")) ∧
    ∀ v, handle_tool_call testClient okRemote "delete_objects" [] ≠ .ok v :=
  handle_tool_call_unknown testClient okRemote "delete_objects" [] (by decide)

/-- C4: `create_contact` with `{email, firstname}` and no explicit properties
map sends body `{"properties": {"email": ..., "firstname": ...}}`; with
`{email, properties: {email: old, lastname}}` it sends
`{"properties": {"email": <new>, "lastname": ...}}` — shorthand fields fully
populate `properties` when none is given and overwrite same-named keys when
one is. -/
theorem create_contact_merge :
    runTool "create_contact" [("email", .str "a@b.com"), ("firstname", .str "X")] =
      .ok { method := "POST", endpoint := "/crm/v3/objects/contacts", params := none,
            jsonData := some (.obj [("properties",
              .obj [("email", .str "a@b.com"), ("firstname", .str "X")])]) } ∧
    runTool "create_contact" [("email", .str "a@b.com"),
        ("properties", .obj [("email", .str "old@b.com"), ("lastname", .str "Y")])] =
      .ok { method := "POST", endpoint := "/crm/v3/objects/contacts", params := none,
            jsonData := some (.obj [("properties",
              .obj [("email", .str "a@b.com"), ("lastname", .str "Y")])]) } :=
  ⟨rfl, rfl⟩

section RequiredLemmas

lemma getItem_none {args : Dict} {k : String} (h : dictGet args k = none) :
    getItem args k = .error (.keyError k) := by
  unfold getItem; rw [h]

lemma handle_get_contact_missing (args : Dict)
    (h : dictGet args "contact_id" = none) :
    isOk (handle_get_contact args) = false := by
  unfold handle_get_contact
  rw [getItem_none h]
  rfl

lemma handle_get_company_missing (args : Dict)
    (h : dictGet args "company_id" = none) :
    isOk (handle_get_company args) = false := by
  unfold handle_get_company
  rw [getItem_none h]
  rfl

lemma handle_update_contact_missing_id (args : Dict)
    (h : dictGet args "contact_id" = none) :
    isOk (handle_update_contact args) = false := by
  unfold handle_update_contact
  rw [getItem_none h]
  rfl

lemma handle_update_contact_missing_props (args : Dict)
    (h : dictGet args "properties" = none) :
    isOk (handle_update_contact args) = false := by
  unfold handle_update_contact
  rw [getItem_none h]
  cases hc : dictGet args "contact_id" with
  | none => rw [getItem_none hc]; rfl
  | some v =>
      show isOk (getItem args "contact_id" >>= fun contact_id =>
        Except.error (PyError.keyError "properties") >>= fun properties =>
        pure (HubSpotClient.update_contact contact_id properties)) = false
      unfold getItem
      rw [hc]
      rfl

lemma handle_search_missing (args : Dict) (k : String)
    (hk : k = "object_type" ∨ k = "property" ∨ k = "value")
    (h : dictGet args k = none) :
    isOk (handle_search args) = false := by
  unfold handle_search
  rcases hk with rfl | rfl | rfl
  · rw [getItem_none h]; rfl
  · cases ho : dictGet args "object_type" with
    | none => rw [getItem_none ho]; rfl
    | some v =>
        unfold getItem
        rw [ho, h]
        rfl
  · cases ho : dictGet args "object_type" with
    | none => rw [getItem_none ho]; rfl
    | some v =>
        cases hp : dictGet args "property" with
        | none => unfold getItem; rw [ho, hp]; rfl
        | some w => unfold getItem; rw [ho, hp, h]; rfl

end RequiredLemmas

/-- C2 counterexample: the claim fails on `create_contact` — its schema lists
`email` as required, yet the bound handler reads `email` only behind an
`if "email" in params` guard, so on the empty argument map (where `email` is
absent) the handler succeeds instead of dereferencing the key; the declared
required set therefore does not match the keys the handler dereferences
without a default. -/
theorem required_mismatch_create_contact :
    "email" ∈ requiredOf "create_contact" ∧
    dictContains [] "email" = false ∧
    isOk (runTool "create_contact" []) = true :=
  ⟨by decide, rfl, rfl⟩

/-- C2 amended: the exact correspondence between a tool's declared `required`
list and the keys its handler dereferences without a default holds for every
registered tool except `create_contact` and `create_company`: for the seven
other tools, the absence of any required key makes the handler fail, while
`create_contact` (required: email) and `create_company` (required: name) read
their required key only behind a presence guard and succeed on the empty
argument map. -/
theorem required_matches_unconditional_dereference :
    (∀ name ∈ (["list_contacts", "get_contact", "update_contact", "list_companies",
                "get_company", "list_deals", "search"] : List String),
       ∀ k ∈ requiredOf name, ∀ args : Dict, dictContains args k = false →
         isOk (runTool name args) = false) ∧
    ("email" ∈ requiredOf "create_contact" ∧
       isOk (runTool "create_contact" []) = true) ∧
    ("name" ∈ requiredOf "create_company" ∧
       isOk (runTool "create_company" []) = true) := by
  refine ⟨?_, ⟨by decide, rfl⟩, ⟨by decide, rfl⟩⟩
  intro name hname k hk args hargs
  have hnone := dictGet_eq_none_of_not_contains hargs
  fin_cases hname
  · rw [show requiredOf "list_contacts" = [] from rfl] at hk
    exact absurd hk (List.not_mem_nil k)
  · rw [show requiredOf "get_contact" = ["contact_id"] from rfl] at hk
    rcases List.mem_singleton.mp hk with rfl
    exact handle_get_contact_missing args hnone
  · rw [show requiredOf "update_contact" = ["contact_id", "properties"] from rfl] at hk
    rcases List.mem_pair.mp hk with rfl | rfl
    · exact handle_update_contact_missing_id args hnone
    · exact handle_update_contact_missing_props args hnone
  · rw [show requiredOf "list_companies" = [] from rfl] at hk
    exact absurd hk (List.not_mem_nil k)
  · rw [show requiredOf "get_company" = ["company_id"] from rfl] at hk
    rcases List.mem_singleton.mp hk with rfl
    exact handle_get_company_missing args hnone
  · rw [show requiredOf "list_deals" = [] from rfl] at hk
    exact absurd hk (List.not_mem_nil k)
  · rw [show requiredOf "search" = ["object_type", "property", "value"] from rfl] at hk
    have hk3 : k = "object_type" ∨ k = "property" ∨ k = "value" := by
      simpa using hk
    exact handle_search_missing args k hk3 hnone

/-- Witness for the amended C2 at a concrete input: `update_contact` with the
required `properties` key absent fails, while `create_contact` succeeds with
its required key absent. -/
theorem required_matches_unconditional_dereference_witness :
    isOk (runTool "update_contact" [("contact_id", .str "1")]) = false ∧
    isOk (runTool "create_contact" []) = true :=
  ⟨required_matches_unconditional_dereference.1 "update_contact" (by decide)
      "properties" (by decide) [("contact_id", .str "1")] rfl,
   required_matches_unconditional_dereference.2.1.2⟩

section HapikeyLemmas

lemma bind_ok_elim {α β : Type} {e : Except PyError α} {f : α → Except PyError β}
    {b : β} (h : (e >>= f) = .ok b) : ∃ a, e = .ok a ∧ f a = .ok b := by
  cases e with
  | error err => exact absurd h (by simp [Bind.bind, Except.bind])
  | ok a => exact ⟨a, rfl, by simpa [Bind.bind, Except.bind] using h⟩

lemma map_ok_elim {α β : Type} {e : Except PyError α} {f : α → β} {b : β}
    (h : (f <$> e) = .ok b) : ∃ a, e = .ok a ∧ f a = b := by
  cases e with
  | error err => exact absurd h (by simp [Functor.map, Except.map])
  | ok a => exact ⟨a, rfl, by simpa [Functor.map, Except.map] using h⟩

lemma lookup_go_mem (l : List (String × Tool)) (name : String) (t : Tool)
    (h : lookupTool.go l name = some t) : (name, t) ∈ l := by
  induction l with
  | nil => simp [lookupTool.go] at h
  | cons kv rest ih =>
      obtain ⟨k, tv⟩ := kv
      rw [lookupTool.go] at h
      by_cases hk : k = name
      · subst hk
        rw [if_pos rfl] at h
        cases h
        exact List.mem_cons_self _ _
      · rw [if_neg hk] at h
        exact List.mem_cons_of_mem _ (ih h)

lemma get_contacts_no_hapikey (limit : JValue) (properties : JValue)
    (call : ClientCall) (ps : Dict)
    (h : HubSpotClient.get_contacts limit properties = .ok call)
    (hp : call.params = some ps) : dictContains ps "hapikey" = false := by
  unfold HubSpotClient.get_contacts at h
  by_cases ht : jtruthy properties
  · rw [ht] at h
    cases hj : joinComma properties with
    | error e =>
        rw [hj] at h
        exact absurd h (by simp [Bind.bind, Except.bind, Pure.pure, Except.pure])
    | ok s =>
        rw [hj] at h
        cases h
        cases hp
        rfl
  · rw [Bool.not_eq_true] at ht
    rw [ht] at h
    cases h
    cases hp
    rfl

lemma get_companies_no_hapikey (limit : JValue) (properties : JValue)
    (call : ClientCall) (ps : Dict)
    (h : HubSpotClient.get_companies limit properties = .ok call)
    (hp : call.params = some ps) : dictContains ps "hapikey" = false := by
  unfold HubSpotClient.get_companies at h
  by_cases ht : jtruthy properties
  · rw [ht] at h
    cases hj : joinComma properties with
    | error e =>
        rw [hj] at h
        exact absurd h (by simp [Bind.bind, Except.bind, Pure.pure, Except.pure])
    | ok s =>
        rw [hj] at h
        cases h
        cases hp
        rfl
  · rw [Bool.not_eq_true] at ht
    rw [ht] at h
    cases h
    cases hp
    rfl

lemma get_deals_no_hapikey (limit : JValue) (properties : JValue)
    (call : ClientCall) (ps : Dict)
    (h : HubSpotClient.get_deals limit properties = .ok call)
    (hp : call.params = some ps) : dictContains ps "hapikey" = false := by
  unfold HubSpotClient.get_deals at h
  by_cases ht : jtruthy properties
  · rw [ht] at h
    cases hj : joinComma properties with
    | error e =>
        rw [hj] at h
        exact absurd h (by simp [Bind.bind, Except.bind, Pure.pure, Except.pure])
    | ok s =>
        rw [hj] at h
        cases h
        cases hp
        rfl
  · rw [Bool.not_eq_true] at ht
    rw [ht] at h
    cases h
    cases hp
    rfl

lemma registry_handler_no_hapikey :
    ∀ nt ∈ registry, ∀ (args : Dict) (call : ClientCall) (ps : Dict),
      nt.2.handler args = .ok call → call.params = some ps →
      dictContains ps "hapikey" = false := by
  intro nt hnt args call ps h hp
  fin_cases hnt
  · replace h : HubSpotClient.get_contacts ((dictGet args "limit").getD (.int 100))
        ((dictGet args "properties").getD .null) = Except.ok call := h
    exact get_contacts_no_hapikey _ _ call ps h hp
  · replace h : handle_get_contact args = Except.ok call := h
    unfold handle_get_contact at h
    obtain ⟨v, -, hcall⟩ := map_ok_elim h
    subst hcall
    cases hp
  · replace h : handle_create_contact args = Except.ok call := h
    unfold handle_create_contact at h
    obtain ⟨p1, -, h⟩ := bind_ok_elim h
    obtain ⟨p2, -, h⟩ := bind_ok_elim h
    obtain ⟨p3, -, hcall⟩ := map_ok_elim h
    subst hcall
    cases hp
  · replace h : handle_update_contact args = Except.ok call := h
    unfold handle_update_contact at h
    obtain ⟨v, -, h⟩ := bind_ok_elim h
    obtain ⟨w, -, hcall⟩ := map_ok_elim h
    subst hcall
    cases hp
  · replace h : HubSpotClient.get_companies ((dictGet args "limit").getD (.int 100))
        .null = Except.ok call := h
    exact get_companies_no_hapikey _ _ call ps h hp
  · replace h : handle_get_company args = Except.ok call := h
    unfold handle_get_company at h
    obtain ⟨v, -, hcall⟩ := map_ok_elim h
    subst hcall
    cases hp
  · replace h : handle_create_company args = Except.ok call := h
    unfold handle_create_company at h
    obtain ⟨p1, -, hcall⟩ := map_ok_elim h
    subst hcall
    cases hp
  · replace h : HubSpotClient.get_deals ((dictGet args "limit").getD (.int 100))
        .null = Except.ok call := h
    exact get_deals_no_hapikey _ _ call ps h hp
  · replace h : handle_search args = Except.ok call := h
    unfold handle_search at h
    obtain ⟨v, -, h⟩ := bind_ok_elim h
    obtain ⟨w, -, h⟩ := bind_ok_elim h
    obtain ⟨u, -, hcall⟩ := map_ok_elim h
    subst hcall
    cases hp

end HapikeyLemmas

/-- C5: authentication selection.  When an access token is set (even if an API
key is also set — the access token wins), every outbound request carries
`Authorization: Bearer <access_token>` and the query parameters pass through
with no API-key parameter added (and no handler-built call ever contains a
`hapikey` parameter of its own).  When only an API key is set, every outbound
request carries `Authorization: Bearer <api_key>` and additionally the API key
as the `hapikey` query parameter.  The header selection is the one computed at
client construction, not recomputed per call. -/
theorem credential_selection (config : HubSpotConfig) (call : ClientCall) :
    ((mkClient config).headers = get_headers config) ∧
    ((buildRequest (mkClient config) call).headers = (mkClient config).headers) ∧
    (∀ tok, config.access_token = some tok → tok ≠ "" →
       (buildRequest (mkClient config) call).headers =
         [("Content-Type", "application/json"), ("Authorization", "Bearer " ++ tok)] ∧
       (buildRequest (mkClient config) call).params = call.params) ∧
    (∀ key, truthyS config.access_token = false → config.api_key = some key →
       key ≠ "" →
       (buildRequest (mkClient config) call).headers =
         [("Content-Type", "application/json"), ("Authorization", "Bearer " ++ key)] ∧
       (buildRequest (mkClient config) call).params =
         some (dictSet (call.params.getD []) "hapikey" (.str key))) ∧
    (∀ (name : String) (args : Dict) (c : ClientCall) (qs : Dict),
       runTool name args = .ok c → c.params = some qs →
       dictContains qs "hapikey" = false) := by
  have hne : ∀ s : String, s ≠ "" → s.isEmpty = false := by
    intro s hs
    rw [Bool.eq_false_iff]
    intro hc
    exact hs ((String.isEmpty_iff s).mp hc)
  refine ⟨rfl, rfl, ?_, ?_, ?_⟩
  · intro tok hts htok
    have htr : truthyS config.access_token = true := by
      rw [hts]
      show (!tok.isEmpty) = true
      rw [hne tok htok]
      rfl
    constructor
    · show get_headers config = _
      unfold get_headers
      rw [htr, hts]
      rfl
    · show (buildRequest (mkClient config) call).params = call.params
      dsimp only [buildRequest, mkClient]
      rw [htr]
      simp
  · intro key hts hk hkey
    have hktr : truthyS config.api_key = true := by
      rw [hk]
      show (!key.isEmpty) = true
      rw [hne key hkey]
      rfl
    constructor
    · show get_headers config = _
      unfold get_headers
      rw [hts, hktr, hk]
      rfl
    · show (buildRequest (mkClient config) call).params = _
      dsimp only [buildRequest, mkClient]
      rw [hts, hktr, hk]
      simp
  · intro name args c qs hrun hcp
    obtain ⟨t, hl, hh⟩ := runTool_lookup hrun
    have hmem := lookup_go_mem registry name t hl
    exact registry_handler_no_hapikey (name, t) hmem args c qs hh hcp

/-- A concrete call for witness instantiations. -/
def testCall : ClientCall := HubSpotClient.get_contact (.str "1")

/-- A concrete API-key-only configuration for witness instantiations. -/
def apiKeyConfig : HubSpotConfig :=
  { api_key := some "key", access_token := none, api_base_url := "https://api.hubapi.com" }

/-- Witness for C5 at concrete inputs: a token-only client and an API-key-only
client issuing the same call. -/
theorem credential_selection_witness :
    ((buildRequest (mkClient testConfig) testCall).headers =
       [("Content-Type", "application/json"), ("Authorization", "Bearer " ++ "token")] ∧
     (buildRequest (mkClient testConfig) testCall).params = testCall.params) ∧
    ((buildRequest (mkClient apiKeyConfig) testCall).headers =
       [("Content-Type", "application/json"), ("Authorization", "Bearer " ++ "key")] ∧
     (buildRequest (mkClient apiKeyConfig) testCall).params =
       some (dictSet (testCall.params.getD []) "hapikey" (.str "key"))) :=
  ⟨(credential_selection testConfig testCall).2.2.1 "token" rfl (by decide),
   (credential_selection apiKeyConfig testCall).2.2.2.1 "key" rfl rfl (by decide)⟩

section DispatchLemmas

lemma handle_tool_call_eq_envelope (client : HubSpotClient) (remote : Remote)
    (name : String) (args : Dict) (h : isRegistered name = true) :
    handle_tool_call client remote name args =
      match toolOutcome client remote name args with
      | .ok v => .ok (.obj [("success", .bool true), ("result", v)])
      | .error e => .ok (.obj [("success", .bool false),
                               ("error", .str (strOfError e))]) := by
  unfold isRegistered at h
  unfold handle_tool_call
  cases hl : lookupTool name with
  | none => rw [hl] at h; simp at h
  | some t => rfl

lemma getItem_some {args : Dict} {k : String} {v : JValue}
    (h : dictGet args k = some v) : getItem args k = .ok v := by
  unfold getItem; rw [h]

lemma handle_search_eq (args : Dict) (ot p v : JValue)
    (hot : dictGet args "object_type" = some ot)
    (hp : dictGet args "property" = some p)
    (hv : dictGet args "value" = some v) :
    runTool "search" args = .ok (HubSpotClient.search ot
      [.obj [("propertyName", p),
             ("operator", (dictGet args "operator").getD (.str "EQ")),
             ("value", v)]]
      ((dictGet args "limit").getD (.int 100))) := by
  show handle_search args = _
  unfold handle_search
  rw [getItem_some hot, getItem_some hp, getItem_some hv]
  rfl

end DispatchLemmas

/-- C6: for every object type, ordered filter list and limit, the search
operation POSTs exactly the body
`{"filterGroups": [{"filters": <filters in order>}], "limit": <limit>}` — a
single AND-filter group, never several; and the dispatcher's search handler
builds exactly one filter `{propertyName, operator (default "EQ"), value}`
from its `property`/`operator`/`value` arguments. -/
theorem search_single_filter_group :
    (∀ (object_type : JValue) (filters : List JValue) (limit : JValue),
       HubSpotClient.search object_type filters limit =
         { method := "POST",
           endpoint := "/crm/v3/objects/" ++ pyStr object_type ++ "/search",
           params := none,
           jsonData := some (.obj
             [("filterGroups", .arr [.obj [("filters", .arr filters)]]),
              ("limit", limit)]) }) ∧
    (∀ (args : Dict) (ot p v : JValue),
       dictGet args "object_type" = some ot →
       dictGet args "property" = some p →
       dictGet args "value" = some v →
       runTool "search" args = .ok (HubSpotClient.search ot
         [.obj [("propertyName", p),
                ("operator", (dictGet args "operator").getD (.str "EQ")),
                ("value", v)]]
         ((dictGet args "limit").getD (.int 100)))) := by
  constructor
  · intro object_type filters limit
    rfl
  · intro args ot p v hot hp hv
    exact handle_search_eq args ot p v hot hp hv

/-- Witness for C6 at the specification's concrete example:
`search("contacts", email EQ a@b.com, limit 10)`. -/
theorem search_single_filter_group_witness :
    runTool "search" [("object_type", .str "contacts"), ("property", .str "email"),
        ("operator", .str "EQ"), ("value", .str "a@b.com"), ("limit", .int 10)] =
      .ok { method := "POST", endpoint := "/crm/v3/objects/contacts/search",
            params := none,
            jsonData := some (.obj
              [("filterGroups", .arr [.obj [("filters", .arr
                 [.obj [("propertyName", .str "email"), ("operator", .str "EQ"),
                        ("value", .str "a@b.com")]])]]),
               ("limit", .int 10)]) } :=
  search_single_filter_group.2
    [("object_type", .str "contacts"), ("property", .str "email"),
     ("operator", .str "EQ"), ("value", .str "a@b.com"), ("limit", .int 10)]
    (.str "contacts") (.str "email") (.str "a@b.com") rfl rfl rfl

/-- C7 counterexample: the claim's dispatcher scenario is impossible — no
`delete_contact` tool is registered, so dispatching `delete_contact` raises
`ValueError("Unknown tool: delete_contact")` even against a remote that
answers 204, and never yields the success envelope the claim describes. -/
theorem delete_contact_not_dispatchable :
    handle_tool_call testClient remote204 "delete_contact" [] =
      .error (.valueError "Unknown tool: delete_contact") := rfl

/-- C7 amended: a 204 answer is normalized by the transport to
`{success: true, message: "Operation completed successfully"}` instead of
parsing the empty body — in particular the client-level `delete_contact` call
returns that dict — but `delete_contact` is not a registered tool, so a
dispatcher invocation of it raises UnknownTool; a registered tool whose
request is answered with 204 (e.g. `update_contact`) yields the dispatcher
envelope `{success: true, result: {success: true, message: ...}}`. -/
theorem no_content_normalization (remote : Remote) (body : JValue)
    (h : ∀ req, remote req = .answer 204 body) :
    (∀ req, interpret remote req = .ok noContentResult) ∧
    (∀ (client : HubSpotClient) (cid : JValue),
       performCall client remote (HubSpotClient.delete_contact cid) =
         .ok noContentResult) ∧
    isRegistered "delete_contact" = false ∧
    (∀ (client : HubSpotClient) (args : Dict),
       handle_tool_call client remote "delete_contact" args =
         .error (.valueError ("Unknown tool: " ++ "delete_contact"))) ∧
    (∀ client : HubSpotClient,
       handle_tool_call client remote "update_contact"
           [("contact_id", .str "1"), ("properties", .obj [])] =
         .ok (.obj [("success", .bool true), ("result", noContentResult)])) := by
  have hinterp : ∀ req, interpret remote req = .ok noContentResult := by
    intro req
    unfold interpret
    rw [h]
    rfl
  refine ⟨hinterp, ?_, rfl, ?_, ?_⟩
  · intro client cid
    exact hinterp _
  · intro client args
    rfl
  · intro client
    rw [handle_tool_call_eq_envelope client remote "update_contact"
        [("contact_id", .str "1"), ("properties", .obj [])] rfl]
    have hout : toolOutcome client remote "update_contact"
        [("contact_id", .str "1"), ("properties", .obj [])] = .ok noContentResult := by
      show performCall client remote (HubSpotClient.update_contact (.str "1") (.obj [])) =
        .ok noContentResult
      exact hinterp _
    rw [hout]

/-- Witness for C7 (amended) at a concrete input: dispatching
`update_contact` against a remote answering 204 everywhere. -/
theorem no_content_normalization_witness :
    handle_tool_call testClient remote204 "update_contact"
        [("contact_id", .str "1"), ("properties", .obj [])] =
      .ok (.obj [("success", .bool true), ("result", noContentResult)]) :=
  (no_content_normalization remote204 (.obj []) (fun _ => rfl)).2.2.2.2 testClient

/-- C8: a non-2xx status makes the transport fail with
`HttpStatusError{status, body}` — a failure kind distinguishable from
`NetworkError` — and a dispatched tool whose request is so answered surfaces
as `{success: false, error: <message containing the status and the body>}`,
returned normally by the dispatcher, never thrown past it. -/
theorem http_status_error_envelope (client : HubSpotClient) (remote : Remote)
    (name : String) (args : Dict) (call : ClientCall) (status : Nat) (body : JValue)
    (hrun : runTool name args = .ok call)
    (hremote : ∀ req, remote req = .answer status body)
    (hstatus : ¬(200 ≤ status ∧ status < 300)) :
    performCall client remote call =
      .error (.httpStatusError status (jsonRender body)) ∧
    handle_tool_call client remote name args =
      .ok (.obj [("success", .bool false),
                 ("error", .str (renderHttpStatusError status (jsonRender body)))]) ∧
    (∃ s1 s2, renderHttpStatusError status (jsonRender body) =
       s1 ++ toString status ++ s2) ∧
    (∃ t1, renderHttpStatusError status (jsonRender body) =
       t1 ++ jsonRender body) ∧
    (∀ s b m, PyError.httpStatusError s b ≠ PyError.networkError m) := by
  have hperf : performCall client remote call =
      .error (.httpStatusError status (jsonRender body)) := by
    unfold performCall interpret
    simp only [hremote]
    rw [if_neg hstatus]
  have hreg : isRegistered name = true := by
    unfold isRegistered
    obtain ⟨t, hl, -⟩ := runTool_lookup hrun
    rw [hl]
    rfl
  refine ⟨hperf, ?_, ?_, ?_, ?_⟩
  · rw [handle_tool_call_eq_envelope client remote name args hreg]
    have hout : toolOutcome client remote name args =
        .error (.httpStatusError status (jsonRender body)) := by
      unfold toolOutcome
      rw [hrun]
      exact hperf
    rw [hout]
    rfl
  · refine ⟨"HTTP error ", ": " ++ jsonRender body, ?_⟩
    unfold renderHttpStatusError
    rw [String.append_assoc ("HTTP error " ++ toString status) ": " (jsonRender body)]
  · refine ⟨"HTTP error " ++ toString status ++ ": ", ?_⟩
    unfold renderHttpStatusError
    rfl
  · intro s b m hcontra
    exact PyError.noConfusion hcontra

/-- Witness for C8 at a concrete input: `get_contact` dispatched against a
remote answering 500 with body "internal server error". -/
theorem http_status_error_envelope_witness :
    handle_tool_call testClient remote500 "get_contact" [("contact_id", .str "1")] =
      .ok (.obj [("success", .bool false),
            ("error", .str (renderHttpStatusError 500
              (jsonRender (.str "internal server error"))))]) :=
  (http_status_error_envelope testClient remote500 "get_contact"
      [("contact_id", .str "1")] (HubSpotClient.get_contact (.str "1")) 500
      (.str "internal server error") rfl (fun _ => rfl) (by decide)).2.1

/-- C9 counterexample: the Bind step does not copy the caller's `properties`
map — invoking the create-contact handler with
`{email: "a@b.com", properties: {email: "old@b.com"}}` leaves the caller's
nested `properties` object holding `{email: "a@b.com"}` afterwards, so the
caller-supplied argument map is changed by the handler. -/
theorem create_contact_mutates_caller :
    dictGet (handle_create_contact_tracked
        [("email", .str "a@b.com"),
         ("properties", .obj [("email", .str "old@b.com")])]).2 "properties" =
      some (.obj [("email", .str "a@b.com")]) ∧
    dictGet (handle_create_contact_tracked
        [("email", .str "a@b.com"),
         ("properties", .obj [("email", .str "old@b.com")])]).2 "properties" ≠
      some (.obj [("email", .str "old@b.com")]) := by
  constructor
  · rfl
  · rw [show dictGet (handle_create_contact_tracked
        [("email", .str "a@b.com"),
         ("properties", .obj [("email", .str "old@b.com")])]).2 "properties" =
        some (.obj [("email", .str "a@b.com")]) from rfl]
    simp

/-- C9 amended: the shorthand fields are applied to the caller's `properties`
map itself (an alias, not a copy): the handler's outcome agrees with the pure
embedding, the caller's argument map is unchanged when no `properties` was
supplied, and when the caller supplies a nested `properties` object that
object is mutated in place to the merged map (which is also what goes
outbound). -/
theorem create_contact_aliases_caller (params : Dict) :
    ((handle_create_contact_tracked params).1 = handle_create_contact params) ∧
    (dictContains params "properties" = false →
       (handle_create_contact_tracked params).2 = params) ∧
    (∀ d, dictGet params "properties" = some (.obj d) →
       (handle_create_contact_tracked params).2 =
         dictSet params "properties" (.obj (mergeShorthands params d))) := by
  refine ⟨?_, ?_, ?_⟩
  · unfold handle_create_contact_tracked
    cases hp : dictGet params "properties" with
    | none => rfl
    | some v =>
        cases v with
        | obj d => exact (handle_create_contact_obj params d hp).symm
        | null => rfl
        | bool b => rfl
        | int i => rfl
        | str s => rfl
        | arr items => rfl
  · intro h
    have hp := dictGet_eq_none_of_not_contains h
    unfold handle_create_contact_tracked
    rw [hp]
  · intro d hp
    unfold handle_create_contact_tracked
    rw [hp]

/-- Witness for C9 (amended) at a concrete input: the caller's nested map
after the handler equals the in-place merged map. -/
theorem create_contact_aliases_caller_witness :
    (handle_create_contact_tracked
        [("email", .str "a@b.com"),
         ("properties", .obj [("email", .str "old@b.com")])]).2 =
      dictSet [("email", .str "a@b.com"),
               ("properties", .obj [("email", .str "old@b.com")])]
        "properties" (.obj (mergeShorthands
          [("email", .str "a@b.com"),
           ("properties", .obj [("email", .str "old@b.com")])]
          [("email", .str "old@b.com")])) :=
  (create_contact_aliases_caller
      [("email", .str "a@b.com"),
       ("properties", .obj [("email", .str "old@b.com")])]).2.2
    [("email", .str "old@b.com")] rfl

/-- The `limit` field of the JSON body a client call sends. -/
def callBodyLimit (call : ClientCall) : Option JValue :=
  match call.jsonData with
  | some (.obj fields) => dictGet fields "limit"
  | _ => none

/-- C10: the search tool's declared parameter schema lists no `limit`
property, yet the handler reads `limit` from the caller's argument map and
forwards it in the outbound body, defaulting to 100 when absent — an
undeclared `limit` argument takes effect. -/
theorem search_limit_undeclared :
    ("limit" ∉ schemaPropertyNames searchSchema) ∧
    (∀ (args : Dict) (ot p v : JValue),
       dictGet args "object_type" = some ot →
       dictGet args "property" = some p →
       dictGet args "value" = some v →
       ∃ call, runTool "search" args = .ok call ∧
         callBodyLimit call = some ((dictGet args "limit").getD (.int 100))) := by
  constructor
  · decide
  · intro args ot p v hot hp hv
    refine ⟨_, handle_search_eq args ot p v hot hp hv, rfl⟩

/-- Witness for C10 at a concrete input: an undeclared `limit` of 7 is
forwarded in the body. -/
theorem search_limit_undeclared_witness :
    ∃ call, runTool "search"
        [("object_type", .str "contacts"), ("property", .str "email"),
         ("value", .str "a@b.com"), ("limit", .int 7)] = .ok call ∧
      callBodyLimit call = some (.int 7) :=
  search_limit_undeclared.2
    [("object_type", .str "contacts"), ("property", .str "email"),
     ("value", .str "a@b.com"), ("limit", .int 7)]
    (.str "contacts") (.str "email") (.str "a@b.com") rfl rfl rfl

end HubSpotMCP
